import Mathlib

/-!
Shallow embedding of the Connect-Stethoscope servo control program.

The repository contains two near-identical MicroPython variants:
  * `steth-single.py` (the richer variant, namespace `Single` below): per-servo
    speed editing, run/stop control, combined position+bound editing, and an
    `ApplicationController` cycling three application states;
  * `stethoscope-simple.py` (namespace `Simple` below): min/max bound editing
    only, the servo always sweeps.

Numbers: MicroPython ints are unbounded, so bounds and speed are `Int`; the
angle may become fractional through `update` (speed * elapsed_ms / 1000), so it
is `Rat`, the exact-arithmetic reading of the interpreter value. Elapsed time
between updates is a nonnegative millisecond count (`Nat`). Hardware calls
(`Servo.value`, display drawing) have no effect on controller state and are
omitted; `update` receives the elapsed time as a parameter in place of the
`utime.ticks_ms` reads.
-/

namespace Steth

/-- Truncation toward zero, the behaviour of the Python `int()` conversion
applied to the exact value. -/
def truncQ (q : ℚ) : ℤ := if q < 0 then ⌈q⌉ else ⌊q⌋

/-- Checked division on rationals: Python raises `ZeroDivisionError` on a zero
divisor, so a division is modelled as fallible. -/
def qdiv (a b : ℚ) : Option ℚ := if b = 0 then none else some (a / b)

/-- `rescale` from both source files (identical text): rescale `x` from range
`[in_min, in_max]` to `[out_min, out_max]`. A degenerate input range returns
the fallback `out_min`; otherwise the affine image, truncated to int. All call
sites pass integer range endpoints; `x` may be a fractional angle. -/
def rescale (x : ℚ) (in_min in_max out_min out_max : ℤ) : Option ℤ :=
  if (in_max : ℚ) - (in_min : ℚ) = 0 then
    some out_min
  else
    match qdiv ((x - (in_min : ℚ)) * ((out_max : ℚ) - (out_min : ℚ)))
        ((in_max : ℚ) - (in_min : ℚ)) with
    | none => none
    | some q => some (truncQ (q + (out_min : ℚ)))

namespace Single

/-- Mutable state of `ServoController` in `steth-single.py`, hardware handles
and purely cosmetic fields (`vertical_offset`, `marker`, `marker_offset`, the
cached `_tick_min`/`_tick_max`/`_marker_pos` draw positions) omitted. -/
structure ServoState where
  angle : ℚ
  speed : ℤ
  min_angle : ℤ
  max_angle : ℤ
  reversing : Bool
  display_mode : ℕ
  min_position_being_updated : Bool
  max_position_being_updated : Bool
  position_being_updated : Bool
  speed_being_updated : Bool
  is_selected : Bool
  is_running : Bool
deriving DecidableEq

/-- `ServoController.__init__` of the richer variant: `min_angle` and
`max_angle` start at 90, everything deselected, not running. `angle` and
`speed` are constructor arguments (defaults 90 and 20). -/
def ServoState.init (angle : ℚ) (speed : ℤ) : ServoState :=
  { angle := angle
    speed := speed
    min_angle := 90
    max_angle := 90
    reversing := false
    display_mode := 0
    min_position_being_updated := false
    max_position_being_updated := false
    position_being_updated := false
    speed_being_updated := false
    is_selected := false
    is_running := false }

/-- `ServoController.stop`. -/
def stop (s : ServoState) : ServoState := { s with is_running := false }

/-- `ServoController.run`. -/
def run (s : ServoState) : ServoState := { s with is_running := true }

/-- `ServoController.display_small`. -/
def display_small (s : ServoState) : ServoState := { s with display_mode := 0 }

/-- `ServoController.display_full`. -/
def display_full (s : ServoState) : ServoState := { s with display_mode := 1 }

/-- `ServoController.min_position_setting_toggle`: flip the min flag; when it
becomes set, deselect max and speed and stop the sweep. -/
def min_position_setting_toggle (s : ServoState) : ServoState :=
  if !s.min_position_being_updated then
    { s with min_position_being_updated := true
             max_position_being_updated := false
             speed_being_updated := false
             is_running := false }
  else
    { s with min_position_being_updated := false }

/-- `ServoController.max_position_setting_toggle`: flip the max flag; when it
becomes set, deselect min and speed and stop the sweep. -/
def max_position_setting_toggle (s : ServoState) : ServoState :=
  if !s.max_position_being_updated then
    { s with max_position_being_updated := true
             min_position_being_updated := false
             speed_being_updated := false
             is_running := false }
  else
    { s with max_position_being_updated := false }

/-- `ServoController.position_and_min_setting_toggle`: flip the min flag, copy
it into the position flag, jump the arm to the min bound; when the min flag
becomes set, deselect max and speed. -/
def position_and_min_setting_toggle (s : ServoState) : ServoState :=
  if !s.min_position_being_updated then
    { s with min_position_being_updated := true
             position_being_updated := true
             angle := (s.min_angle : ℚ)
             max_position_being_updated := false
             speed_being_updated := false }
  else
    { s with min_position_being_updated := false
             position_being_updated := false
             angle := (s.min_angle : ℚ) }

/-- `ServoController.position_and_max_setting_toggle`: symmetric to the min
version, for the max bound. -/
def position_and_max_setting_toggle (s : ServoState) : ServoState :=
  if !s.max_position_being_updated then
    { s with max_position_being_updated := true
             position_being_updated := true
             angle := (s.max_angle : ℚ)
             min_position_being_updated := false
             speed_being_updated := false }
  else
    { s with max_position_being_updated := false
             position_being_updated := false
             angle := (s.max_angle : ℚ) }

/-- `ServoController.speed_setting_toggle`: flip the speed flag; when it
becomes set, deselect min, max and position. -/
def speed_setting_toggle (s : ServoState) : ServoState :=
  if !s.speed_being_updated then
    { s with speed_being_updated := true
             min_position_being_updated := false
             max_position_being_updated := false
             position_being_updated := false }
  else
    { s with speed_being_updated := false }

/-- `ServoController.toggle_run`: flip the running state and deselect all four
editing flags. -/
def toggle_run (s : ServoState) : ServoState :=
  { s with is_running := !s.is_running
           min_position_being_updated := false
           max_position_being_updated := false
           position_being_updated := false
           speed_being_updated := false }

/-- `ServoController.increment_value` of the richer variant: step the selected
field up (bounds and position by 2, speed by 2), clamping inside each branch,
and unconditionally drag `max_angle` up to `min_angle` if the min crossed it. -/
def increment_value (s : ServoState) : ServoState :=
  let min1 : ℤ := if s.min_position_being_updated then
      (if s.min_angle + 2 > 180 then 180 else s.min_angle + 2) else s.min_angle
  let max1 : ℤ := if s.max_position_being_updated then
      (if s.max_angle + 2 > 180 then 180 else s.max_angle + 2) else s.max_angle
  let max2 : ℤ := if min1 > max1 then min1 else max1
  let speed1 : ℤ := if s.speed_being_updated then
      (if s.speed + 2 > 150 then 150 else s.speed + 2) else s.speed
  let angle1 : ℚ := if s.position_being_updated then
      (if s.angle + 2 > 180 then 180 else s.angle + 2) else s.angle
  { s with min_angle := min1, max_angle := max2, speed := speed1, angle := angle1 }

/-- `ServoController.decrement_value` of the richer variant: step the selected
field down (bounds and position by 2, speed by 1), clamping inside each branch,
and unconditionally drag `min_angle` down to `max_angle` if the max crossed it. -/
def decrement_value (s : ServoState) : ServoState :=
  let min1 : ℤ := if s.min_position_being_updated then
      (if s.min_angle - 2 < 0 then 0 else s.min_angle - 2) else s.min_angle
  let max1 : ℤ := if s.max_position_being_updated then
      (if s.max_angle - 2 < 0 then 0 else s.max_angle - 2) else s.max_angle
  let min2 : ℤ := if max1 < min1 then max1 else min1
  let speed1 : ℤ := if s.speed_being_updated then
      (if s.speed - 1 < 1 then 1 else s.speed - 1) else s.speed
  let angle1 : ℚ := if s.position_being_updated then
      (if s.angle - 2 < 0 then 0 else s.angle - 2) else s.angle
  { s with min_angle := min2, max_angle := max1, speed := speed1, angle := angle1 }

/-- The angular displacement `speed * time_delta / 1000` computed by
`ServoController.update` for an elapsed time of `dt` milliseconds. -/
def angleDelta (speed : ℤ) (dt : ℕ) : ℚ := (speed : ℚ) * (dt : ℚ) / 1000

/-- `ServoController.update` of the richer variant, the elapsed milliseconds
since the previous update passed as `dt`: when running, advance the angle by
`angleDelta` in the current direction, clamp at the active bound and flip the
direction on overshoot. -/
def update (dt : ℕ) (s : ServoState) : ServoState :=
  if s.is_running then
    if s.reversing then
      { s with
        angle := if s.angle - angleDelta s.speed dt < (s.min_angle : ℚ) then
            (s.min_angle : ℚ) else s.angle - angleDelta s.speed dt
        reversing := if s.angle - angleDelta s.speed dt < (s.min_angle : ℚ) then
            false else s.reversing }
    else
      { s with
        angle := if s.angle + angleDelta s.speed dt > (s.max_angle : ℚ) then
            (s.max_angle : ℚ) else s.angle + angleDelta s.speed dt
        reversing := if s.angle + angleDelta s.speed dt > (s.max_angle : ℚ) then
            true else s.reversing }
  else s

/-- A sequence of `update` calls, one elapsed time per call. -/
def updates (dts : List ℕ) (s : ServoState) : ServoState :=
  dts.foldl (fun t dt => update dt t) s

/-- The five selection-toggle operations of the richer variant, as dispatched
by the button mappings of `steth-single.py`. -/
inductive Toggle where
  | tmin
  | tmax
  | tpmin
  | tpmax
  | tspeed
deriving DecidableEq

/-- Apply one selection-toggle operation. -/
def applyToggle : Toggle → ServoState → ServoState
  | Toggle.tmin => min_position_setting_toggle
  | Toggle.tmax => max_position_setting_toggle
  | Toggle.tpmin => position_and_min_setting_toggle
  | Toggle.tpmax => position_and_max_setting_toggle
  | Toggle.tspeed => speed_setting_toggle

/-- Apply a sequence of selection-toggle operations. -/
def applyToggles (ops : List Toggle) (s : ServoState) : ServoState :=
  ops.foldl (fun t op => applyToggle op t) s

/-- `ApplicationController` state in `steth-single.py`, instantiated as in the
main program: `object_list` is the pair `(servoD5, servoD7)`, `num_states = 3`.
The menu controllers hold no state touched by the mode transitions. -/
structure AppState where
  application_state : ℕ
  servoA : ServoState
  servoB : ServoState
deriving DecidableEq

/-- `ApplicationController._handle_state_change`: state 0 sets every servo to
the small display and running; state 1 stops both and gives servo A the full
display; state 2 stops both and gives servo B the full display. -/
def handle_state_change (a : AppState) : AppState :=
  if a.application_state = 0 then
    { a with servoA := run (display_small a.servoA),
             servoB := run (display_small a.servoB) }
  else if a.application_state = 1 then
    { a with servoA := display_full (stop a.servoA), servoB := stop a.servoB }
  else if a.application_state = 2 then
    { a with servoA := stop a.servoA, servoB := display_full (stop a.servoB) }
  else a

/-- `ApplicationController.increment_state` with `num_states = 3`: advance the
state, wrap above 2 back to 0, then apply the state-change side effects. -/
def increment_state (a : AppState) : AppState :=
  let st := a.application_state + 1
  let st := if st > 3 - 1 then 0 else st
  handle_state_change { a with application_state := st }

/-- The application state at program start: `app = ApplicationController((servoD5,
servoD7), ..., 0, 3)` with `servoD5 = ServoController(2)` and
`servoD7 = ServoController(pin=3, speed=60, ...)`. The constructor performs no
state-change side effects. -/
def appInit : AppState :=
  { application_state := 0
    servoA := ServoState.init 90 20
    servoB := ServoState.init 90 60 }

end Single

namespace Simple

/-- Mutable state of `ServoController` in `stethoscope-simple.py`: no display
mode, no run/stop control (the sweep always advances), no speed editing. The
unused `position_being_updated` and `speed_being_updated` fields exist in the
source and are kept. -/
structure ServoState where
  angle : ℚ
  speed : ℤ
  min_angle : ℤ
  max_angle : ℤ
  reversing : Bool
  min_position_being_updated : Bool
  max_position_being_updated : Bool
  position_being_updated : Bool
  speed_being_updated : Bool
  is_selected : Bool
deriving DecidableEq

/-- `ServoController.__init__` of the simple variant: bounds start at 0 and
180, everything deselected. -/
def ServoState.init (angle : ℚ) (speed : ℤ) : ServoState :=
  { angle := angle
    speed := speed
    min_angle := 0
    max_angle := 180
    reversing := false
    min_position_being_updated := false
    max_position_being_updated := false
    position_being_updated := false
    speed_being_updated := false
    is_selected := false }

/-- `ServoController.min_position_setting_toggle` of the simple variant: flip
the min flag; when it becomes set, deselect max. -/
def min_position_setting_toggle (s : ServoState) : ServoState :=
  if !s.min_position_being_updated then
    { s with min_position_being_updated := true, max_position_being_updated := false }
  else
    { s with min_position_being_updated := false }

/-- `ServoController.max_position_setting_toggle` of the simple variant: flip
the max flag; when it becomes set, deselect min. -/
def max_position_setting_toggle (s : ServoState) : ServoState :=
  if !s.max_position_being_updated then
    { s with max_position_being_updated := true, min_position_being_updated := false }
  else
    { s with max_position_being_updated := false }

/-- `ServoController.increment_value` of the simple variant: step a selected
bound up by 1; the clamps at 180 sit outside the flag checks, and the
min-over-max drag is unconditional. -/
def increment_value (s : ServoState) : ServoState :=
  let min1 : ℤ := if s.min_position_being_updated then s.min_angle + 1 else s.min_angle
  let min2 : ℤ := if min1 > 180 then 180 else min1
  let max1 : ℤ := if s.max_position_being_updated then s.max_angle + 1 else s.max_angle
  let max2 : ℤ := if max1 > 180 then 180 else max1
  let max3 : ℤ := if min2 > max2 then min2 else max2
  { s with min_angle := min2, max_angle := max3 }

/-- `ServoController.decrement_value` of the simple variant: step a selected
bound down by 1; the clamps at 0 sit outside the flag checks, and the
max-under-min drag is unconditional. -/
def decrement_value (s : ServoState) : ServoState :=
  let min1 : ℤ := if s.min_position_being_updated then s.min_angle - 1 else s.min_angle
  let min2 : ℤ := if min1 < 0 then 0 else min1
  let max1 : ℤ := if s.max_position_being_updated then s.max_angle - 1 else s.max_angle
  let max2 : ℤ := if max1 < 0 then 0 else max1
  let min3 : ℤ := if max2 < min2 then max2 else min2
  { s with min_angle := min3, max_angle := max2 }

/-- `ServoController.update` of the simple variant, the elapsed milliseconds
passed as `dt`: identical to the richer variant except that the sweep always
advances (there is no running flag). -/
def update (dt : ℕ) (s : ServoState) : ServoState :=
  if s.reversing then
    { s with
      angle := if s.angle - Single.angleDelta s.speed dt < (s.min_angle : ℚ) then
          (s.min_angle : ℚ) else s.angle - Single.angleDelta s.speed dt
      reversing := if s.angle - Single.angleDelta s.speed dt < (s.min_angle : ℚ) then
          false else s.reversing }
  else
    { s with
      angle := if s.angle + Single.angleDelta s.speed dt > (s.max_angle : ℚ) then
          (s.max_angle : ℚ) else s.angle + Single.angleDelta s.speed dt
      reversing := if s.angle + Single.angleDelta s.speed dt > (s.max_angle : ℚ) then
          true else s.reversing }

/-- A sequence of `update` calls, one elapsed time per call. -/
def updates (dts : List ℕ) (s : ServoState) : ServoState :=
  dts.foldl (fun t dt => update dt t) s

/-- The two selection-toggle operations of the simple variant. -/
inductive Toggle where
  | tmin
  | tmax
deriving DecidableEq

/-- Apply one selection-toggle operation of the simple variant. -/
def applyToggle : Toggle → ServoState → ServoState
  | Toggle.tmin => min_position_setting_toggle
  | Toggle.tmax => max_position_setting_toggle

/-- Apply a sequence of selection-toggle operations of the simple variant. -/
def applyToggles (ops : List Toggle) (s : ServoState) : ServoState :=
  ops.foldl (fun t op => applyToggle op t) s

end Simple

/-- `ButtonController` state (the class text is identical in the two files):
the debounce interval and the single shared timestamp of the last dispatch. -/
structure BCState where
  debounce_interval : ℕ
  time_last_checked : ℕ
deriving DecidableEq

/-- One `ButtonController.check` call at monotonic time `now`: walk the bound
buttons in mapping order; each pressed button whose distance from the shared
`_time_last_checked` exceeds the debounce interval dispatches its action and
resets the shared timestamp to `now`. Returns the new state and the list of
buttons whose action was dispatched, in dispatch order. -/
def bcCheck (mapping : List ℕ) (pressed : ℕ → Bool) (now : ℕ) (st : BCState) :
    BCState × List ℕ :=
  mapping.foldl
    (fun acc b =>
      if pressed b ∧ now - acc.1.time_last_checked > acc.1.debounce_interval then
        ({ acc.1 with time_last_checked := now }, acc.2 ++ [b])
      else acc)
    (st, [])

/-- How many of the four editing flags of a richer-variant servo are set. -/
def Single.selectionFlagCount (s : Single.ServoState) : ℕ :=
  (if s.min_position_being_updated then 1 else 0) +
  (if s.max_position_being_updated then 1 else 0) +
  (if s.position_being_updated then 1 else 0) +
  (if s.speed_being_updated then 1 else 0)

/-- How many of the min, max and speed editing flags of a richer-variant servo
are set (the position flag excluded). -/
def Single.exclusiveFlagCount (s : Single.ServoState) : ℕ :=
  (if s.min_position_being_updated then 1 else 0) +
  (if s.max_position_being_updated then 1 else 0) +
  (if s.speed_being_updated then 1 else 0)

/-- How many of the four editing flags of a simple-variant servo are set. -/
def Simple.selectionFlagCount (s : Simple.ServoState) : ℕ :=
  (if s.min_position_being_updated then 1 else 0) +
  (if s.max_position_being_updated then 1 else 0) +
  (if s.position_being_updated then 1 else 0) +
  (if s.speed_being_updated then 1 else 0)

/-- The invariant the five toggles of the richer variant actually maintain: at
most one of the min, max and speed flags is set, and the speed flag never
coexists with the position flag. -/
def Single.flagsExclusive (s : Single.ServoState) : Prop :=
  Single.exclusiveFlagCount s ≤ 1 ∧
  (s.speed_being_updated = false ∨ s.position_being_updated = false)

/-- The invariant the two toggles of the simple variant maintain: at most one
flag set overall, and the position and speed flags never set. -/
def Simple.flagsBoundOnly (s : Simple.ServoState) : Prop :=
  Simple.selectionFlagCount s ≤ 1 ∧
  s.position_being_updated = false ∧ s.speed_being_updated = false

/-- Exactly the min-bound editing flag is selected. -/
def Single.onlyMinSelected (s : Single.ServoState) : Prop :=
  s.min_position_being_updated = true ∧ s.max_position_being_updated = false ∧
  s.position_being_updated = false ∧ s.speed_being_updated = false

/-- Exactly the max-bound editing flag is selected. -/
def Single.onlyMaxSelected (s : Single.ServoState) : Prop :=
  s.min_position_being_updated = false ∧ s.max_position_being_updated = true ∧
  s.position_being_updated = false ∧ s.speed_being_updated = false

/-- Exactly the speed editing flag is selected. -/
def Single.onlySpeedSelected (s : Single.ServoState) : Prop :=
  s.min_position_being_updated = false ∧ s.max_position_being_updated = false ∧
  s.position_being_updated = false ∧ s.speed_being_updated = true

/-- Exactly the position editing flag is selected. -/
def Single.onlyPositionSelected (s : Single.ServoState) : Prop :=
  s.min_position_being_updated = false ∧ s.max_position_being_updated = false ∧
  s.position_being_updated = true ∧ s.speed_being_updated = false

/-- A richer-variant servo matching the worked example of the spec: bounds 0
and 180, speed 20, angle 90, forward direction, running. -/
def runningServo : Single.ServoState :=
  { Single.ServoState.init 90 20 with min_angle := 0, max_angle := 180, is_running := true }

/-- A simple-variant servo as constructed for `servoD7` in the main program. -/
def simpleServo : Simple.ServoState := Simple.ServoState.init 90 60

/-- A richer-variant servo with only the min flag selected. -/
def minSelServo : Single.ServoState :=
  { Single.ServoState.init 90 20 with min_position_being_updated := true }

/-- A richer-variant servo with only the max flag selected. -/
def maxSelServo : Single.ServoState :=
  { Single.ServoState.init 90 20 with max_position_being_updated := true }

/-- A richer-variant servo with only the speed flag selected. -/
def speedSelServo : Single.ServoState :=
  { Single.ServoState.init 90 20 with speed_being_updated := true }

/-- A richer-variant servo with only the position flag selected. -/
def posSelServo : Single.ServoState :=
  { Single.ServoState.init 90 20 with position_being_updated := true }

/-- The application state after the OVERVIEW side effects have been applied
once (both servos on the small display and running). -/
def appOverview : Single.AppState := Single.handle_state_change Single.appInit

theorem angleDelta_nonneg (speed : ℤ) (dt : ℕ) (h : 0 < speed) :
    0 ≤ Single.angleDelta speed dt := by
  unfold Single.angleDelta
  positivity

theorem Single.update_fields (dt : ℕ) (s : Single.ServoState) :
    (Single.update dt s).min_angle = s.min_angle ∧
    (Single.update dt s).max_angle = s.max_angle ∧
    (Single.update dt s).speed = s.speed ∧
    (Single.update dt s).is_running = s.is_running := by
  unfold Single.update
  split_ifs <;> simp

theorem Single.update_mem (dt : ℕ) (s : Single.ServoState)
    (hd : 0 ≤ Single.angleDelta s.speed dt)
    (h1 : (s.min_angle : ℚ) ≤ s.angle) (h2 : s.angle ≤ (s.max_angle : ℚ)) :
    ((Single.update dt s).min_angle : ℚ) ≤ (Single.update dt s).angle ∧
    (Single.update dt s).angle ≤ ((Single.update dt s).max_angle : ℚ) := by
  have hmm : s.min_angle ≤ s.max_angle := by exact_mod_cast le_trans h1 h2
  unfold Single.update
  split_ifs <;>
    first
      | exact ⟨h1, h2⟩
      | (simp <;> first | exact hmm | (constructor <;> linarith) | linarith)

theorem Single.updates_invariant (dts : List ℕ) (s : Single.ServoState)
    (hsp : 0 < s.speed)
    (h1 : (s.min_angle : ℚ) ≤ s.angle) (h2 : s.angle ≤ (s.max_angle : ℚ)) :
    ((Single.updates dts s).min_angle : ℚ) ≤ (Single.updates dts s).angle ∧
    (Single.updates dts s).angle ≤ ((Single.updates dts s).max_angle : ℚ) := by
  induction dts generalizing s with
  | nil => exact ⟨h1, h2⟩
  | cons dt rest ih =>
    have hmem := Single.update_mem dt s (angleDelta_nonneg s.speed dt hsp) h1 h2
    have hf := Single.update_fields dt s
    show ((Single.updates rest (Single.update dt s)).min_angle : ℚ) ≤ _ ∧ _
    exact ih (Single.update dt s) (by rw [hf.2.2.1]; exact hsp) hmem.1 hmem.2

theorem Single.updates_running (dts : List ℕ) (s : Single.ServoState) :
    (Single.updates dts s).is_running = s.is_running := by
  induction dts generalizing s with
  | nil => rfl
  | cons dt rest ih =>
    show (Single.updates rest (Single.update dt s)).is_running = _
    rw [ih, (Single.update_fields dt s).2.2.2]

theorem Single.update_flip (dt : ℕ) (t : Single.ServoState) (hrun : t.is_running = true) :
    ((Single.update dt t).reversing ≠ t.reversing ↔
      (if t.reversing then t.angle - Single.angleDelta t.speed dt < (t.min_angle : ℚ)
       else ((t.max_angle : ℚ) < t.angle + Single.angleDelta t.speed dt))) := by
  unfold Single.update
  rw [hrun]
  cases hr : t.reversing <;> simp [hr]

theorem Simple.simple_update_fields (dt : ℕ) (s : Simple.ServoState) :
    (Simple.update dt s).min_angle = s.min_angle ∧
    (Simple.update dt s).max_angle = s.max_angle ∧
    (Simple.update dt s).speed = s.speed := by
  unfold Simple.update
  split_ifs <;> simp

theorem Simple.simple_update_mem (dt : ℕ) (s : Simple.ServoState)
    (hd : 0 ≤ Single.angleDelta s.speed dt)
    (h1 : (s.min_angle : ℚ) ≤ s.angle) (h2 : s.angle ≤ (s.max_angle : ℚ)) :
    ((Simple.update dt s).min_angle : ℚ) ≤ (Simple.update dt s).angle ∧
    (Simple.update dt s).angle ≤ ((Simple.update dt s).max_angle : ℚ) := by
  have hmm : s.min_angle ≤ s.max_angle := by exact_mod_cast le_trans h1 h2
  unfold Simple.update
  split_ifs <;>
    first
      | exact ⟨h1, h2⟩
      | (simp <;> first | exact hmm | (constructor <;> linarith) | linarith)

theorem Simple.simple_updates_invariant (dts : List ℕ) (s : Simple.ServoState)
    (hsp : 0 < s.speed)
    (h1 : (s.min_angle : ℚ) ≤ s.angle) (h2 : s.angle ≤ (s.max_angle : ℚ)) :
    ((Simple.updates dts s).min_angle : ℚ) ≤ (Simple.updates dts s).angle ∧
    (Simple.updates dts s).angle ≤ ((Simple.updates dts s).max_angle : ℚ) := by
  induction dts generalizing s with
  | nil => exact ⟨h1, h2⟩
  | cons dt rest ih =>
    have hmem := Simple.simple_update_mem dt s (angleDelta_nonneg s.speed dt hsp) h1 h2
    have hf := Simple.simple_update_fields dt s
    show ((Simple.updates rest (Simple.update dt s)).min_angle : ℚ) ≤ _ ∧ _
    exact ih (Simple.update dt s) (by rw [hf.2.2]; exact hsp) hmem.1 hmem.2

theorem Single.applyToggle_flags (op : Single.Toggle) (s : Single.ServoState)
    (h : Single.flagsExclusive s) : Single.flagsExclusive (Single.applyToggle op s) := by
  obtain ⟨hc, hsp⟩ := h
  cases op <;>
    unfold Single.applyToggle Single.min_position_setting_toggle
      Single.max_position_setting_toggle Single.position_and_min_setting_toggle
      Single.position_and_max_setting_toggle Single.speed_setting_toggle <;>
    unfold Single.flagsExclusive Single.exclusiveFlagCount at * <;>
    cases hm : s.min_position_being_updated <;>
    cases hx : s.max_position_being_updated <;>
    cases hp : s.position_being_updated <;>
    cases hv : s.speed_being_updated <;>
    simp_all

theorem Single.applyToggles_flags (ops : List Single.Toggle) (s : Single.ServoState)
    (h : Single.flagsExclusive s) : Single.flagsExclusive (Single.applyToggles ops s) := by
  induction ops generalizing s with
  | nil => exact h
  | cons op rest ih =>
    show Single.flagsExclusive (Single.applyToggles rest (Single.applyToggle op s))
    exact ih _ (Single.applyToggle_flags op s h)

theorem Simple.simple_applyToggle_flags (op : Simple.Toggle) (s : Simple.ServoState)
    (h : Simple.flagsBoundOnly s) : Simple.flagsBoundOnly (Simple.applyToggle op s) := by
  obtain ⟨hc, hp, hv⟩ := h
  cases op <;>
    unfold Simple.applyToggle Simple.min_position_setting_toggle
      Simple.max_position_setting_toggle <;>
    unfold Simple.flagsBoundOnly Simple.selectionFlagCount at * <;>
    cases hm : s.min_position_being_updated <;>
    cases hx : s.max_position_being_updated <;>
    simp_all

theorem Simple.simple_applyToggles_flags (ops : List Simple.Toggle) (s : Simple.ServoState)
    (h : Simple.flagsBoundOnly s) : Simple.flagsBoundOnly (Simple.applyToggles ops s) := by
  induction ops generalizing s with
  | nil => exact h
  | cons op rest ih =>
    show Simple.flagsBoundOnly (Simple.applyToggles rest (Simple.applyToggle op s))
    exact ih _ (Simple.simple_applyToggle_flags op s h)

theorem Single.selectionFlagCount_zero (s : Single.ServoState)
    (hs : Single.selectionFlagCount s = 0) :
    s.min_position_being_updated = false ∧ s.max_position_being_updated = false ∧
    s.position_being_updated = false ∧ s.speed_being_updated = false := by
  unfold Single.selectionFlagCount at hs
  cases hm : s.min_position_being_updated <;>
  cases hx : s.max_position_being_updated <;>
  cases hp : s.position_being_updated <;>
  cases hv : s.speed_being_updated <;> simp_all

theorem Simple.simple_selectionFlagCount_zero (s : Simple.ServoState)
    (hs : Simple.selectionFlagCount s = 0) :
    s.min_position_being_updated = false ∧ s.max_position_being_updated = false ∧
    s.position_being_updated = false ∧ s.speed_being_updated = false := by
  unfold Simple.selectionFlagCount at hs
  cases hm : s.min_position_being_updated <;>
  cases hx : s.max_position_being_updated <;>
  cases hp : s.position_being_updated <;>
  cases hv : s.speed_being_updated <;> simp_all

/-- C1: for every servo state and regardless of which editing flags are set,
after any single call to `increment_value` or `decrement_value` the
postcondition `min_angle ≤ max_angle` holds (a bound that crosses the other
drags the other to match), in both program variants. -/
theorem increment_decrement_preserve_bound_order :
    (∀ s : Single.ServoState,
      (Single.increment_value s).min_angle ≤ (Single.increment_value s).max_angle ∧
      (Single.decrement_value s).min_angle ≤ (Single.decrement_value s).max_angle) ∧
    (∀ s : Simple.ServoState,
      (Simple.increment_value s).min_angle ≤ (Simple.increment_value s).max_angle ∧
      (Simple.decrement_value s).min_angle ≤ (Simple.decrement_value s).max_angle) := by
  constructor <;> intro s <;> constructor <;>
    first
    | (unfold Single.increment_value; dsimp only; split_ifs <;> omega)
    | (unfold Single.decrement_value; dsimp only; split_ifs <;> omega)
    | (unfold Simple.increment_value; dsimp only; split_ifs <;> omega)
    | (unfold Simple.decrement_value; dsimp only; split_ifs <;> omega)

/-- C2: from a running state with `min ≤ angle ≤ max` and positive speed,
every sequence of `update` calls with nonnegative elapsed times keeps the
angle inside `[min_angle, max_angle]` (and the servo running), the direction
flag flips exactly when the tentative angle overshoots the active bound and is
clamped there, and the same containment holds for the simple variant, whose
sweep always runs. -/
theorem running_sweep_in_bounds_flip_iff_overshoot
    (s : Single.ServoState) (dts : List ℕ) (dt : ℕ) (t : Single.ServoState)
    (u : Simple.ServoState) (dts2 : List ℕ)
    (hrun : s.is_running = true) (hsp : 0 < s.speed)
    (h1 : (s.min_angle : ℚ) ≤ s.angle) (h2 : s.angle ≤ (s.max_angle : ℚ))
    (htrun : t.is_running = true)
    (husp : 0 < u.speed) (h3 : (u.min_angle : ℚ) ≤ u.angle)
    (h4 : u.angle ≤ (u.max_angle : ℚ)) :
    (((Single.updates dts s).min_angle : ℚ) ≤ (Single.updates dts s).angle ∧
     (Single.updates dts s).angle ≤ ((Single.updates dts s).max_angle : ℚ) ∧
     (Single.updates dts s).is_running = true) ∧
    ((Single.update dt t).reversing ≠ t.reversing ↔
      (if t.reversing then t.angle - Single.angleDelta t.speed dt < (t.min_angle : ℚ)
       else ((t.max_angle : ℚ) < t.angle + Single.angleDelta t.speed dt))) ∧
    (((Simple.updates dts2 u).min_angle : ℚ) ≤ (Simple.updates dts2 u).angle ∧
     (Simple.updates dts2 u).angle ≤ ((Simple.updates dts2 u).max_angle : ℚ)) := by
  obtain ⟨i1, i2⟩ := Single.updates_invariant dts s hsp h1 h2
  refine ⟨⟨i1, i2, ?_⟩, Single.update_flip dt t htrun,
    Simple.simple_updates_invariant dts2 u husp h3 h4⟩
  rw [Single.updates_running, hrun]

/-- C2 witness: the theorem instantiated on the running demo servo with two
update steps, the flip characterisation at elapsed time 100 ms, and the simple
variant servo of the main program with one step. -/
theorem running_sweep_in_bounds_flip_iff_overshoot_witness :
    (((Single.updates [1000, 250] runningServo).min_angle : ℚ) ≤
        (Single.updates [1000, 250] runningServo).angle ∧
     (Single.updates [1000, 250] runningServo).angle ≤
        ((Single.updates [1000, 250] runningServo).max_angle : ℚ) ∧
     (Single.updates [1000, 250] runningServo).is_running = true) ∧
    ((Single.update 100 runningServo).reversing ≠ runningServo.reversing ↔
      (if runningServo.reversing then
        runningServo.angle - Single.angleDelta runningServo.speed 100 <
          (runningServo.min_angle : ℚ)
       else ((runningServo.max_angle : ℚ) <
          runningServo.angle + Single.angleDelta runningServo.speed 100))) ∧
    (((Simple.updates [500] simpleServo).min_angle : ℚ) ≤
        (Simple.updates [500] simpleServo).angle ∧
     (Simple.updates [500] simpleServo).angle ≤
        ((Simple.updates [500] simpleServo).max_angle : ℚ)) :=
  running_sweep_in_bounds_flip_iff_overshoot runningServo [1000, 250] 100 runningServo
    simpleServo [500] rfl (by decide) (by decide) (by decide) rfl (by decide)
    (by decide) (by decide)

/-- C3 counterexample: on the worked example (bounds 0 and 180, speed 20,
angle 90, forward, running) an `update` after 4500 ms computes a delta of 90
degrees and sets the angle to exactly 180, but the direction does NOT flip:
the code flips only on strict overshoot (`angle > max_angle`), and 180 is not
greater than 180. -/
theorem update_at_exact_bound_reaches_180_without_flip :
    Single.angleDelta runningServo.speed 4500 = 90 ∧
    (Single.update 4500 runningServo).angle = 180 ∧
    (Single.update 4500 runningServo).reversing = false := by
  refine ⟨?_, ?_, ?_⟩ <;>
    norm_num [Single.update, Single.angleDelta, runningServo, Single.ServoState.init]

/-- C3 amended: on the worked example the delta is 90 degrees and the angle
becomes exactly 180, but the direction stays forward; the flip to reverse
happens on the following update with positive elapsed time, when the
tentative angle strictly overshoots the bound. -/
theorem update_example_flip_on_following_update :
    Single.angleDelta runningServo.speed 4500 = 90 ∧
    (Single.update 4500 runningServo).angle = 180 ∧
    (Single.update 4500 runningServo).reversing = false ∧
    (Single.update 1 (Single.update 4500 runningServo)).reversing = true := by
  refine ⟨?_, ?_, ?_, ?_⟩ <;>
    norm_num [Single.update, Single.angleDelta, runningServo, Single.ServoState.init]

/-- C4 counterexample: with only the speed flag selected and speed 20 (well
inside the domain, no step clamps), `increment_value` then `decrement_value`
leaves speed at 21, not at its original value: increments step speed by 2 but
decrements step it by 1. -/
theorem speed_increment_then_decrement_gains_one :
    Single.onlySpeedSelected speedSelServo ∧
    speedSelServo.speed = 20 ∧
    speedSelServo.speed + 2 ≤ 150 ∧ 1 ≤ speedSelServo.speed ∧
    (Single.decrement_value (Single.increment_value speedSelServo)).speed = 21 := by
  refine ⟨⟨rfl, rfl, rfl, rfl⟩, rfl, by decide, by decide, rfl⟩

/-- C4 amended: with exactly one editing flag selected and the field inside
its domain, `increment_value` then `decrement_value` returns the min, max and
position fields to their original value unless the increment clamped at 180
(then the field ends at 178); the speed field, whose steps are +2 up and -1
down, ends at original+1 when the increment did not clamp at 150 and at 149
when it did. -/
theorem increment_then_decrement_roundtrip (s1 s2 s3 s4 : Single.ServoState)
    (hs1 : Single.onlyMinSelected s1) (hd1 : 0 ≤ s1.min_angle)
    (hs2 : Single.onlyMaxSelected s2) (hd2 : 0 ≤ s2.max_angle)
    (hd2b : s2.min_angle ≤ s2.max_angle) (hd2c : s2.max_angle ≤ 180)
    (hs3 : Single.onlySpeedSelected s3) (hd3 : 1 ≤ s3.speed)
    (hs4 : Single.onlyPositionSelected s4) (hd4 : 0 ≤ s4.angle) :
    ((Single.decrement_value (Single.increment_value s1)).min_angle =
      if s1.min_angle + 2 ≤ 180 then s1.min_angle else 178) ∧
    ((Single.decrement_value (Single.increment_value s2)).max_angle =
      if s2.max_angle + 2 ≤ 180 then s2.max_angle else 178) ∧
    ((Single.decrement_value (Single.increment_value s3)).speed =
      if s3.speed + 2 ≤ 150 then s3.speed + 1 else 149) ∧
    ((Single.decrement_value (Single.increment_value s4)).angle =
      if s4.angle + 2 ≤ 180 then s4.angle else 178) := by
  obtain ⟨ha1, hb1, hc1, he1⟩ := hs1
  obtain ⟨ha2, hb2, hc2, he2⟩ := hs2
  obtain ⟨ha3, hb3, hc3, he3⟩ := hs3
  obtain ⟨ha4, hb4, hc4, he4⟩ := hs4
  refine ⟨?_, ?_, ?_, ?_⟩ <;>
    unfold Single.increment_value Single.decrement_value <;>
    dsimp only <;>
    simp_all <;>
    split_ifs <;>
    first
      | omega
      | linarith
      | rfl
      | simp_all

/-- C4 witness: the roundtrip theorem instantiated on four demo servos, one
per selected field, all inside their domains. -/
theorem increment_then_decrement_roundtrip_witness :
    ((Single.decrement_value (Single.increment_value minSelServo)).min_angle =
      if minSelServo.min_angle + 2 ≤ 180 then minSelServo.min_angle else 178) ∧
    ((Single.decrement_value (Single.increment_value maxSelServo)).max_angle =
      if maxSelServo.max_angle + 2 ≤ 180 then maxSelServo.max_angle else 178) ∧
    ((Single.decrement_value (Single.increment_value speedSelServo)).speed =
      if speedSelServo.speed + 2 ≤ 150 then speedSelServo.speed + 1 else 149) ∧
    ((Single.decrement_value (Single.increment_value posSelServo)).angle =
      if posSelServo.angle + 2 ≤ 180 then posSelServo.angle else 178) :=
  increment_then_decrement_roundtrip minSelServo maxSelServo speedSelServo posSelServo
    ⟨rfl, rfl, rfl, rfl⟩ (by decide) ⟨rfl, rfl, rfl, rfl⟩ (by decide) (by decide)
    (by decide) ⟨rfl, rfl, rfl, rfl⟩ (by decide) ⟨rfl, rfl, rfl, rfl⟩ (by decide)

/-- C5 counterexample: from the freshly initialised richer-variant servo (all
four editing flags false), a single `position_and_min_setting_toggle` sets
BOTH the min flag and the position flag, so two editing flags are true at
once and the mutual-exclusion claim fails. -/
theorem position_and_min_toggle_sets_two_flags :
    Single.selectionFlagCount (Single.ServoState.init 90 20) = 0 ∧
    (Single.position_and_min_setting_toggle
      (Single.ServoState.init 90 20)).min_position_being_updated = true ∧
    (Single.position_and_min_setting_toggle
      (Single.ServoState.init 90 20)).position_being_updated = true ∧
    Single.selectionFlagCount
      (Single.position_and_min_setting_toggle (Single.ServoState.init 90 20)) = 2 := by
  refine ⟨rfl, rfl, rfl, rfl⟩

/-- C5 amended: from a state with all editing flags false, any sequence of the
five richer-variant toggles keeps at most one of the min, max and speed flags
true, and the speed flag never coexists with the position flag; the position
flag, however, is deliberately set together with min or max by the combined
position+bound toggles. In the simple variant (min and max toggles only) at
most one of the four flags is ever true. -/
theorem toggle_sequences_flag_exclusion (s : Single.ServoState)
    (ops : List Single.Toggle) (u : Simple.ServoState) (ops2 : List Simple.Toggle)
    (hs : Single.selectionFlagCount s = 0) (hu : Simple.selectionFlagCount u = 0) :
    Single.exclusiveFlagCount (Single.applyToggles ops s) ≤ 1 ∧
    ((Single.applyToggles ops s).speed_being_updated = false ∨
     (Single.applyToggles ops s).position_being_updated = false) ∧
    Simple.selectionFlagCount (Simple.applyToggles ops2 u) ≤ 1 := by
  obtain ⟨hm, hx, hp, hv⟩ := Single.selectionFlagCount_zero s hs
  obtain ⟨hm2, hx2, hp2, hv2⟩ := Simple.simple_selectionFlagCount_zero u hu
  have h1 : Single.flagsExclusive s := by
    unfold Single.flagsExclusive Single.exclusiveFlagCount
    rw [hm, hx, hv]
    simp
  have h2 : Simple.flagsBoundOnly u := by
    unfold Simple.flagsBoundOnly Simple.selectionFlagCount
    rw [hm2, hx2, hp2, hv2]
    simp
  obtain ⟨hc, hd⟩ := Single.applyToggles_flags ops s h1
  obtain ⟨hc2, _, _⟩ := Simple.simple_applyToggles_flags ops2 u h2
  exact ⟨hc, hd, hc2⟩

/-- C5 witness: the invariant theorem instantiated on the fresh servos with a
combined toggle followed by a speed toggle, and both simple toggles. -/
theorem toggle_sequences_flag_exclusion_witness :
    Single.exclusiveFlagCount
      (Single.applyToggles [Single.Toggle.tpmin, Single.Toggle.tspeed]
        (Single.ServoState.init 90 20)) ≤ 1 ∧
    ((Single.applyToggles [Single.Toggle.tpmin, Single.Toggle.tspeed]
        (Single.ServoState.init 90 20)).speed_being_updated = false ∨
     (Single.applyToggles [Single.Toggle.tpmin, Single.Toggle.tspeed]
        (Single.ServoState.init 90 20)).position_being_updated = false) ∧
    Simple.selectionFlagCount
      (Simple.applyToggles [Simple.Toggle.tmin, Simple.Toggle.tmax] simpleServo) ≤ 1 :=
  toggle_sequences_flag_exclusion (Single.ServoState.init 90 20)
    [Single.Toggle.tpmin, Single.Toggle.tspeed] simpleServo
    [Simple.Toggle.tmin, Simple.Toggle.tmax] rfl rfl

/-- C6 counterexample: at program start both servos are constructed with
`is_running = false` and the constructor applies no state-change side effects;
three `increment_state` events return `application_state` to 0 but leave both
servos running, so the running configuration differs from the initial one. -/
theorem three_increments_from_startup_differ_in_running :
    Single.appInit.servoA.is_running = false ∧
    (Single.increment_state (Single.increment_state
        (Single.increment_state Single.appInit))).application_state = 0 ∧
    (Single.increment_state (Single.increment_state
        (Single.increment_state Single.appInit))).servoA.is_running = true := by
  refine ⟨rfl, rfl, rfl⟩

/-- C6 amended: from any application state in state 0 whose two servos already
carry the OVERVIEW configuration (small display, running), three consecutive
`increment_state` events return the entire application state unchanged; the
configuration of the freshly constructed program differs only in that its
servos start with `is_running = false`. -/
theorem three_increments_identity_on_overview_configured (a : Single.AppState)
    (h0 : a.application_state = 0)
    (hA : a.servoA.display_mode = 0) (hArun : a.servoA.is_running = true)
    (hB : a.servoB.display_mode = 0) (hBrun : a.servoB.is_running = true) :
    Single.increment_state (Single.increment_state (Single.increment_state a)) = a := by
  rcases a with ⟨st, sA, sB⟩
  simp only at h0 hA hArun hB hBrun
  subst h0
  simp [Single.increment_state, Single.handle_state_change, Single.run, Single.stop,
    Single.display_small, Single.display_full]
  constructor
  · rcases sA with ⟨a1, a2, a3, a4, a5, a6, a7, a8, a9, a10, a11, a12⟩
    simp_all
  · rcases sB with ⟨b1, b2, b3, b4, b5, b6, b7, b8, b9, b10, b11, b12⟩
    simp_all

/-- C6 witness: three mode advances are the identity on the application state
obtained by applying the OVERVIEW side effects to the startup state. -/
theorem three_increments_identity_witness :
    Single.increment_state (Single.increment_state (Single.increment_state appOverview))
      = appOverview :=
  three_increments_identity_on_overview_configured appOverview rfl rfl rfl rfl rfl

/-- C7: `rescale` never fails: with equal input bounds the checked division is
never reached and the fixed fallback `out_min` is returned; with unequal
bounds it returns the affine rescaling of `x`, truncated to int. -/
theorem rescale_total_fallback_and_affine (x : ℚ) (a b c d : ℤ) :
    (a = b → rescale x a b c d = some c) ∧
    (a ≠ b → rescale x a b c d =
      some (truncQ ((x - (a : ℚ)) * ((d : ℚ) - (c : ℚ)) / ((b : ℚ) - (a : ℚ)) + (c : ℚ)))) := by
  constructor
  · intro h
    subst h
    simp [rescale]
  · intro h
    have hne : (b : ℚ) - (a : ℚ) ≠ 0 := by
      intro hc
      exact h (by exact_mod_cast (sub_eq_zero.mp hc).symm)
    simp [rescale, qdiv, hne]

/-- C7 witness: a degenerate call returns the fallback, and the draw-scale
call mapping angle 90 from `[0, 180]` into `[50, 190]` returns 120. -/
theorem rescale_total_fallback_and_affine_witness :
    rescale 3 5 5 7 9 = some 7 ∧ rescale 90 0 180 50 190 = some 120 :=
  ⟨(rescale_total_fallback_and_affine 3 5 5 7 9).1 rfl,
   ((rescale_total_fallback_and_affine 90 0 180 50 190).2 (by decide)).trans
     (by norm_num [truncQ])⟩

/-- C8: with a single bound button held pressed, a first `check` at time `t1`
past the debounce window dispatches once; a second `check` at `t2` dispatches
again exactly when `t2 - t1` exceeds the debounce interval, so two presses
closer than the interval dispatch once in total and two presses farther apart
than the interval dispatch twice. -/
theorem debounce_dispatch_once_or_twice (b d t0 t1 t2 : ℕ)
    (h1 : t1 - t0 > d) (hle : t1 ≤ t2) :
    ((t2 - t1 < d →
      ((bcCheck [b] (fun x => true) t1 ⟨d, t0⟩).2 ++
       (bcCheck [b] (fun x => true) t2
         (bcCheck [b] (fun x => true) t1 ⟨d, t0⟩).1).2).length = 1) ∧
     (t2 - t1 > d →
      ((bcCheck [b] (fun x => true) t1 ⟨d, t0⟩).2 ++
       (bcCheck [b] (fun x => true) t2
         (bcCheck [b] (fun x => true) t1 ⟨d, t0⟩).1).2).length = 2)) := by
  unfold bcCheck
  simp only [List.foldl_cons, List.foldl_nil, true_and]
  constructor <;> intro h2
  · rw [if_pos h1]
    simp only
    rw [if_neg (by omega)]
    simp
  · rw [if_pos h1]
    simp only
    rw [if_pos (by omega)]
    simp

/-- C8 witness: with a 500 ms debounce interval, presses observed at 501 ms
and 600 ms dispatch once; presses observed at 501 ms and 1101 ms dispatch
twice. -/
theorem debounce_dispatch_once_or_twice_witness :
    ((bcCheck [0] (fun x => true) 501 ⟨500, 0⟩).2 ++
     (bcCheck [0] (fun x => true) 600
       (bcCheck [0] (fun x => true) 501 ⟨500, 0⟩).1).2).length = 1 ∧
    ((bcCheck [0] (fun x => true) 501 ⟨500, 0⟩).2 ++
     (bcCheck [0] (fun x => true) 1101
       (bcCheck [0] (fun x => true) 501 ⟨500, 0⟩).1).2).length = 2 :=
  ⟨(debounce_dispatch_once_or_twice 0 500 0 501 600 (by decide) (by decide)).1 (by decide),
   (debounce_dispatch_once_or_twice 0 500 0 501 1101 (by decide) (by decide)).2 (by decide)⟩

/-- C9: in the richer variant, `toggle_run` flips `is_running`, clears all
four editing flags, and leaves the angle, speed and both bounds unchanged. -/
theorem toggle_run_flips_running_clears_flags (s : Single.ServoState) :
    (Single.toggle_run s).is_running = !s.is_running ∧
    (Single.toggle_run s).min_position_being_updated = false ∧
    (Single.toggle_run s).max_position_being_updated = false ∧
    (Single.toggle_run s).position_being_updated = false ∧
    (Single.toggle_run s).speed_being_updated = false ∧
    (Single.toggle_run s).angle = s.angle ∧
    (Single.toggle_run s).speed = s.speed ∧
    (Single.toggle_run s).min_angle = s.min_angle ∧
    (Single.toggle_run s).max_angle = s.max_angle := by
  simp [Single.toggle_run]

/-- C10: in the richer variant, `min_position_setting_toggle` and
`max_position_setting_toggle` flip their flag; whenever the flag becomes true
(the bound gets selected) the servo is stopped, and when the flag is toggled
off `is_running` is left unchanged, so deselecting never restarts the sweep. -/
theorem bound_toggle_selecting_stops_sweep (s : Single.ServoState) :
    ((Single.min_position_setting_toggle s).min_position_being_updated
        = !s.min_position_being_updated) ∧
    ((Single.min_position_setting_toggle s).is_running
        = if s.min_position_being_updated then s.is_running else false) ∧
    ((Single.max_position_setting_toggle s).max_position_being_updated
        = !s.max_position_being_updated) ∧
    ((Single.max_position_setting_toggle s).is_running
        = if s.max_position_being_updated then s.is_running else false) := by
  unfold Single.min_position_setting_toggle Single.max_position_setting_toggle
  cases h1 : s.min_position_being_updated <;>
  cases h2 : s.max_position_being_updated <;> simp

end Steth
